import Mathlib

/- Formal model of the VDA IR control firmware (src/firmware/src/main.cpp):
   the port table, the IR sender/receiver lifecycle, IR send dispatch, and
   the serial-bridge send/await-response handler.  Each HTTP handler is
   modelled as a pure function from an explicit firmware state (plus, for
   the serial bridge, a schedule of the bytes the UART delivers at each
   poll of the wait loop) to a new state, an ordered list of observable
   hardware/persistence effects, and a result. -/

/-- Input-only GPIO pins, `INPUT_ONLY_PINS` in the source (identical on
both board variants). -/
def INPUT_ONLY_PINS : List Int := [34, 35, 36, 39]

/-- One entry of the port table (`struct PortConfig`): gpio, mode string,
display name. -/
structure PortConfig where
  gpio : Int
  mode : String
  name : String
deriving DecidableEq

/-- Observable effects in program order: hardware binding changes, IR
transmissions, persistence writes, and the HTTP response. -/
inductive HwAction where
  | teardownSender (gpio : Int)
  | createSender (gpio : Int)
  | teardownRecv (gpio : Int)
  | createRecv (gpio : Int)
  | disableRecv (gpio : Int)
  | persistConfig (boardId boardName : String) (adopted : Bool)
      (ports : List PortConfig)
  | sendNEC (value : Nat)
  | sendSAMSUNG (value : Nat)
  | sendSony (value : Nat)
  | sendRC5 (value : Nat)
  | sendRC6 (value : Nat)
  | sendLG (value : Nat)
  | sendPanasonic (address value : Nat)
  | sendGeneric (hdrMark hdrSpace oneMark oneSpace zeroMark zeroSpace
      ftrMark gap minLen value nbits freqKHz : Nat) (msbFirst : Bool)
      (repeats dutyPercent : Nat)
  | httpRespond (status : Nat)
deriving DecidableEq

/-- The firmware's global mutable state relevant to the modelled
handlers: the port table, the per-port sender allocations (`irSenders`,
holding the gpio each allocated `IRsend` was constructed on), the single
receiver allocation (`irReceiver`, with its gpio) together with whether
`enableIRIn` is currently in effect, `activeReceiverPort`, board
identity, and the serial-bridge fields. -/
structure FwState where
  ports : List PortConfig
  irSenders : List (Option Int)
  irReceiver : Option Int
  irEnabled : Bool
  activeReceiverPort : Int
  boardId : String
  boardName : String
  adopted : Bool
  serialEnabled : Bool
  serialRxPin : Int
  serialTxPin : Int
  serialBaud : Int
  serialBuffer : String
deriving DecidableEq

/-- The `saveConfig` persistence write: board identity plus the full
per-port `gpio/mode/name` table. -/
def saveConfigAction (s : FwState) : HwAction :=
  HwAction.persistConfig s.boardId s.boardName s.adopted s.ports

/-- The linear search `for (i < portCount) if (ports[i].gpio == gpio)`
used by `handleConfigurePort`; returns the first matching index and
entry. -/
def findPortIdx : List PortConfig → Int → Option (Nat × PortConfig)
  | [], _ => none
  | p :: rest, g =>
    if p.gpio = g then some (0, p)
    else (findPortIdx rest g).map (fun ip => (ip.1 + 1, ip.2))

/-- The linear search used by `handleSendIR`: first index whose entry has
the requested gpio and mode `"ir_output"`. -/
def findOutputIdx : List PortConfig → Int → Option Nat
  | [], _ => none
  | p :: rest, g =>
    if p.gpio = g ∧ p.mode = "ir_output" then some 0
    else (findOutputIdx rest g).map (fun i => i + 1)

/-- `irSenders[i]`, with an out-of-range index reading as a null sender. -/
def senderAt (s : FwState) (i : Nat) : Option Int :=
  match s.irSenders[i]? with
  | some (some g) => some g
  | _ => none

/-- `initIRSender(portIndex)`: delete any existing sender at that index,
then construct and begin a new `IRsend` on the port's gpio. -/
def initIRSender (s : FwState) (i : Nat) : FwState × List HwAction :=
  match s.ports[i]? with
  | none => (s, [])
  | some p =>
    let tear : List HwAction :=
      match s.irSenders[i]? with
      | some (some g) => [HwAction.teardownSender g]
      | _ => []
    ({ s with irSenders := s.irSenders.set i (some p.gpio) },
     tear ++ [HwAction.createSender p.gpio])

/-- `initIRReceiver(gpio)`: delete any existing receiver object, then
construct a new `IRrecv` on `gpio`, call `enableIRIn`, and record
`activeReceiverPort = gpio`. -/
def initIRReceiver (s : FwState) (gpio : Int) : FwState × List HwAction :=
  let tear : List HwAction :=
    match s.irReceiver with
    | some g => [HwAction.teardownRecv g]
    | none => []
  ({ s with irReceiver := some gpio, irEnabled := true,
            activeReceiverPort := gpio },
   tear ++ [HwAction.createRecv gpio])

/-- `handleLearningStart`: the parsed body field `doc["port"] | 34`
selects the gpio; the receiver is (re)initialised there and a success
response is sent. -/
def handleLearningStart (s : FwState) (portField : Option Int) :
    FwState × List HwAction :=
  let port := portField.getD 34
  let r := initIRReceiver s port
  (r.1, r.2 ++ [HwAction.httpRespond 200])

/-- `handleLearningStop`: if a receiver object exists, call
`disableIRIn` on it (the object itself is not freed); then set
`activeReceiverPort = -1` and respond success. -/
def handleLearningStop (s : FwState) : FwState × List HwAction :=
  match s.irReceiver with
  | some g =>
    ({ s with irEnabled := false, activeReceiverPort := -1 },
     [HwAction.disableRecv g, HwAction.httpRespond 200])
  | none =>
    ({ s with activeReceiverPort := -1 }, [HwAction.httpRespond 200])

/-- One row of the `/ports` listing produced by `handlePorts`. -/
structure PortSnapshot where
  gpio : Int
  mode : String
  name : String
  canInput : Bool
  canOutput : Bool
deriving DecidableEq

/-- `handlePorts`: the table in stable order, each entry annotated with
`can_input` (always true) and `can_output` (false iff input-only pin). -/
def handlePorts (s : FwState) : List PortSnapshot :=
  s.ports.map (fun p =>
    { gpio := p.gpio, mode := p.mode, name := p.name,
      canInput := true,
      canOutput := !(INPUT_ONLY_PINS.contains p.gpio) })

/-- Parsed body of `/ports/configure` with the source's defaults applied
(`doc["port"] | -1`, `doc["mode"] | ""`, `doc["name"] | ""`). -/
structure ConfigureReq where
  gpio : Int
  mode : String
  name : String
deriving DecidableEq

/-- Result of `handleConfigurePort` (the spec's error taxonomy:
`unknownPort` is the "Invalid GPIO" response, `roleNotSupported` the
"GPIO is input-only" response). -/
inductive ConfigureResult where
  | unknownPort
  | roleNotSupported
  | ok (gpio : Int) (mode name : String)
deriving DecidableEq

/-- The mutation block of `handleConfigurePort` once the port at index
`ip.1` (entry `ip.2`) has been found and the input-only guard has
passed: update mode and name in place, then reinitialise the hardware
binding for the new mode (`initIRSender` for `ir_output`,
`initIRReceiver` for `ir_input`, nothing otherwise). -/
def configureStep (s : FwState) (ip : Nat × PortConfig)
    (req : ConfigureReq) : FwState × List HwAction :=
  let p1 : PortConfig := { ip.2 with mode := req.mode, name := req.name }
  let s1 : FwState := { s with ports := s.ports.set ip.1 p1 }
  if req.mode = "ir_output" then initIRSender s1 ip.1
  else if req.mode = "ir_input" then initIRReceiver s1 req.gpio
  else (s1, [])

/-- `handleConfigurePort`: find the port by gpio (else 400), reject
`ir_output` on an input-only pin (else 400), update mode and name in
place, reinitialise the hardware binding for the new mode, persist via
`saveConfig`, then respond success. -/
def handleConfigurePort (s : FwState) (req : ConfigureReq) :
    FwState × List HwAction × ConfigureResult :=
  match findPortIdx s.ports req.gpio with
  | none => (s, [HwAction.httpRespond 400], ConfigureResult.unknownPort)
  | some ip =>
    if req.mode = "ir_output" ∧ req.gpio ∈ INPUT_ONLY_PINS then
      (s, [HwAction.httpRespond 400], ConfigureResult.roleNotSupported)
    else
      let step := configureStep s ip req
      (step.1,
       step.2 ++ [saveConfigAction step.1, HwAction.httpRespond 200],
       ConfigureResult.ok req.gpio req.mode req.name)

/-- The port table after `handleConfigurePort` has updated entry `ip`
in place with the requested mode and name
(`ports[portIndex].mode = mode; ports[portIndex].name = name`). -/
def roleUpdatedPorts (s : FwState) (ip : Nat × PortConfig)
    (req : ConfigureReq) : List PortConfig :=
  s.ports.set ip.1 { ip.2 with mode := req.mode, name := req.name }

/-- Whitespace in the sense of `isspace`, used by Arduino
`String::trim`. -/
def isSpaceChar (c : Char) : Bool :=
  c == ' ' || c == '\t' || c == '\n' || c == '\x0b' || c == '\x0c' || c == '\r'

/-- Hex digit value, if any. -/
def hexDigitVal? (c : Char) : Option Nat :=
  if 48 ≤ c.toNat ∧ c.toNat ≤ 57 then some (c.toNat - 48)
  else if 97 ≤ c.toNat ∧ c.toNat ≤ 102 then some (c.toNat - 87)
  else if 65 ≤ c.toNat ∧ c.toNat ≤ 70 then some (c.toNat - 55)
  else none

/-- Longest leading run of hex digits, as digit values. -/
def takeHexDigits : List Char → List Nat
  | [] => []
  | c :: rest =>
    match hexDigitVal? c with
    | some v => v :: takeHexDigits rest
    | none => []

/-- Drop an optional leading `0x`/`0X` radix tag. -/
def dropRadixTag : List Char → List Char
  | '0' :: c :: rest => if c == 'x' || c == 'X' then rest else '0' :: c :: rest
  | l => l

/-- `strtoull(str, nullptr, 16)` as used on the IR `code` field: skip
leading whitespace, optional sign, optional `0x`, read hex digits,
saturating at `ULLONG_MAX` on overflow (a negated value wraps modulo
2^64). -/
def parseHex (str : String) : Nat :=
  let l := str.toList.dropWhile (fun c => isSpaceChar c)
  let signed : Bool × List Char :=
    match l with
    | '-' :: rest => (true, rest)
    | '+' :: rest => (false, rest)
    | _ => (false, l)
  let ds := takeHexDigits (dropRadixTag signed.2)
  let v := ds.foldl (fun a d => a * 16 + d) 0
  if v > 2 ^ 64 - 1 then 2 ^ 64 - 1
  else if signed.1 then (2 ^ 64 - v) % 2 ^ 64 else v

/-- Parsed body of `/send_ir` with the source's defaults
(`doc["output"] | -1`, `doc["code"] | ""`, `doc["protocol"] | "nec"`). -/
structure SendIrReq where
  output : Int
  code : String
  protocol : String
deriving DecidableEq

/-- The protocol-name dispatch chain of `handleSendIR`, including the
Pioneer generic-timing tuple and the final `sendNEC` fallback for any
unrecognised name. -/
def dispatchProtocol (protocol : String) (v : Nat) : HwAction :=
  if protocol = "nec" then HwAction.sendNEC v
  else if protocol = "samsung" then HwAction.sendSAMSUNG v
  else if protocol = "sony" then HwAction.sendSony v
  else if protocol = "rc5" then HwAction.sendRC5 v
  else if protocol = "rc6" then HwAction.sendRC6 v
  else if protocol = "lg" then HwAction.sendLG v
  else if protocol = "panasonic" then HwAction.sendPanasonic 0x4004 v
  else if protocol = "pioneer" then
    HwAction.sendGeneric 8506 4191 568 1542 568 487 568 25181 84906
      v 32 40 true 0 33
  else HwAction.sendNEC v

/-- The protocol names the dispatch chain tests for explicitly. -/
def KNOWN_PROTOCOLS : List String :=
  ["nec", "samsung", "sony", "rc5", "rc6", "lg", "panasonic", "pioneer"]

/-- `handleSendIR`: find a port with the requested gpio and mode
`"ir_output"` that has an allocated sender (else 400), then dispatch the
parsed code to the protocol encoder and respond success.  The handler
mutates no global state. -/
def handleSendIR (s : FwState) (req : SendIrReq) :
    FwState × List HwAction × Bool :=
  match findOutputIdx s.ports req.output with
  | none => (s, [HwAction.httpRespond 400], false)
  | some i =>
    match senderAt s i with
    | none => (s, [HwAction.httpRespond 400], false)
    | some _ =>
      (s, [dispatchProtocol req.protocol (parseHex req.code),
           HwAction.httpRespond 200], true)

/-- The terminator test of the serial wait loop:
`c == '\n' || c == '\r' || c == '!'`. -/
def isTerm (c : Char) : Bool :=
  c == '\n' || c == '\r' || c == '!'

/-- Arduino `String::trim`: strip leading and trailing whitespace. -/
def trimChars (l : List Char) : List Char :=
  ((l.dropWhile isSpaceChar).reverse.dropWhile isSpaceChar).reverse

/-- The inner drain of the wait loop: read the available bytes one at a
time, accumulating; on the first terminator byte, the 50ms grace delay
runs and everything then available (the rest of the batch plus the bytes
`grace` that arrive during the delay) is absorbed, after which the inner
loop breaks. Returns the accumulated bytes and whether a terminator was
seen. -/
def drainBatch : List Char → List Char → List Char × Bool
  | [], _ => ([], false)
  | c :: rest, grace =>
    if isTerm c then (c :: (rest ++ grace), true)
    else
      let r := drainBatch rest grace
      (c :: r.1, r.2)

/-- Number of polls the outer wait loop can make before
`millis() - start < timeout` fails, each empty poll costing the
`delay(10)` at the bottom of the loop. -/
def pollBudget (timeoutMs : Nat) : Nat := (timeoutMs + 9) / 10

/-- The outer wait loop of `handleSerialSend`: at each poll, drain what
the UART has (`env` lists the batch available at each successive poll);
if anything was accumulated the loop breaks with it, otherwise it delays
10ms and polls again until the time budget is exhausted. -/
def serialWaitLoop (grace : List Char) : Nat → List (List Char) → List Char
  | 0, _ => []
  | fuel + 1, env =>
    let acc := (drainBatch (env.headD []) grace).1
    if acc = [] then serialWaitLoop grace fuel env.tail
    else acc

/-- Hex-pair decoding of the `"hex"` wire format: each two-character
substring is parsed with `strtol(..., 16)` and sent as one byte; a
trailing lone character is dropped. -/
def hexPairByte (a b : Char) : Nat :=
  match hexDigitVal? a with
  | none => 0
  | some x =>
    match hexDigitVal? b with
    | none => x
    | some y => x * 16 + y

/-- Bytes written for `format == "hex"`. -/
def hexPairsToBytes : List Char → List Nat
  | a :: b :: rest => hexPairByte a b :: hexPairsToBytes rest
  | _ => []

/-- Bytes written for the payload under the selected wire format. -/
def encodePayload (format data : String) : List Nat :=
  if format = "hex" then hexPairsToBytes data.toList
  else data.toList.map Char.toNat

/-- Bytes appended for the selected line ending
(`none | cr | lf | crlf | '!'`). -/
def lineEndingBytes (le : String) : List Nat :=
  if le = "cr" then [13]
  else if le = "lf" then [10]
  else if le = "crlf" then [13, 10]
  else if le = "!" then [33]
  else []

/-- Parsed body of `/serial/send` with the source's defaults
(`doc["data"] | ""`, `doc["format"] | "text"`,
`doc["line_ending"] | "none"`, `doc["timeout"] | 1000`,
`doc["wait_response"] | true`). -/
structure SerialSendReq where
  data : String
  format : String
  lineEnding : String
  timeout : Int
  waitResponse : Bool
deriving DecidableEq

/-- Result of `handleSerialSend`: the two 400 error paths, or the
success response carrying the (trimmed) accumulated reply. -/
inductive SerialSendResult where
  | notConfigured
  | dataRequired
  | ok (response : String)
deriving DecidableEq

/-- `handleSerialSend`: reject if the bridge is unconfigured or the data
field is empty; otherwise the pending UART bytes and the receive buffer
are cleared, the payload and line ending are written, and — when
`wait_response` is set and the timeout is positive — the wait loop runs
against the arrival schedule `env` (with `grace` the bytes arriving
during a 50ms terminator grace window); the accumulated reply is trimmed
and returned in a success response. -/
def handleSerialSend (s : FwState) (req : SerialSendReq)
    (env : List (List Char)) (grace : List Char) :
    FwState × List Nat × SerialSendResult :=
  if s.serialEnabled = false then (s, [], SerialSendResult.notConfigured)
  else if req.data.length = 0 then (s, [], SerialSendResult.dataRequired)
  else
    let sent := encodePayload req.format req.data ++
      lineEndingBytes req.lineEnding
    let raw : List Char :=
      if req.waitResponse = true ∧ 0 < req.timeout then
        serialWaitLoop grace (pollBudget req.timeout.toNat) env
      else []
    ({ s with serialBuffer := "" }, sent,
     SerialSendResult.ok (String.mk (trimChars raw)))

/- Concrete states used by the witness and counterexample theorems. -/

/-- A small concrete port table: one output-bound port, one disabled
input-only port. -/
def demoPorts : List PortConfig :=
  [{ gpio := 4, mode := "ir_output", name := "tv" },
   { gpio := 34, mode := "disabled", name := "" }]

/-- A concrete firmware state with a bound sender on gpio 4, no
receiver, and a configured serial bridge. -/
def demoState : FwState :=
  { ports := demoPorts
    irSenders := [some 4, none]
    irReceiver := none
    irEnabled := false
    activeReceiverPort := -1
    boardId := "vda-ir-aabbcc"
    boardName := "VDA IR Controller"
    adopted := false
    serialEnabled := true
    serialRxPin := 16
    serialTxPin := 17
    serialBaud := 115200
    serialBuffer := "" }

/-- A concrete serial send request with wait-for-response enabled. -/
def demoSerialReq : SerialSendReq :=
  { data := "AT", format := "text", lineEnding := "crlf",
    timeout := 1000, waitResponse := true }

/- Helper lemmas about the list searches and the wait loop. -/

theorem getAt_set_self {α : Type} :
    ∀ (l : List α) (i : Nat) (a : α), i < l.length → (l.set i a)[i]? = some a := by
  intro l
  induction l with
  | nil => intro i a h; simp at h
  | cons p rest ih =>
    intro i a h
    cases i with
    | zero => simp
    | succ n =>
      simp only [List.set_cons_succ, List.getElem?_cons_succ]
      exact ih n a (by simpa using h)

theorem getAt_map {α β : Type} (f : α → β) :
    ∀ (l : List α) (i : Nat), (l.map f)[i]? = (l[i]?).map f := by
  intro l
  induction l with
  | nil => intro i; simp
  | cons p rest ih =>
    intro i
    cases i with
    | zero => simp
    | succ n => simp [ih n]

theorem findPortIdx_mem (l : List PortConfig) (g : Int)
    (h : ∃ p ∈ l, p.gpio = g) : ∃ ip, findPortIdx l g = some ip := by
  induction l with
  | nil => simp at h
  | cons p rest ih =>
    by_cases hp : p.gpio = g
    · exact ⟨(0, p), by simp [findPortIdx, hp]⟩
    · obtain ⟨q, hq, hg⟩ := h
      rcases List.mem_cons.mp hq with rfl | hq2
      · exact absurd hg hp
      · obtain ⟨ip, hip⟩ := ih ⟨q, hq2, hg⟩
        exact ⟨(ip.1 + 1, ip.2), by simp [findPortIdx, hp, hip]⟩

theorem findPortIdx_sound (g : Int) :
    ∀ (l : List PortConfig) (i : Nat) (p : PortConfig),
      findPortIdx l g = some (i, p) →
      i < l.length ∧ l[i]? = some p ∧ p.gpio = g := by
  intro l
  induction l with
  | nil => intro i p h; simp [findPortIdx] at h
  | cons q rest ih =>
    intro i p h
    by_cases hq : q.gpio = g
    · simp [findPortIdx, hq] at h
      obtain ⟨rfl, rfl⟩ := h
      exact ⟨by simp, by simp, hq⟩
    · simp [findPortIdx, hq] at h
      obtain ⟨j, hj, hji⟩ := h
      subst hji
      obtain ⟨h1, h2, h3⟩ := ih j p hj
      exact ⟨by simpa using Nat.succ_lt_succ h1, by simpa using h2, h3⟩

theorem findOutputIdx_none (l : List PortConfig) (g : Int)
    (h : ∀ p ∈ l, p.gpio = g → p.mode ≠ "ir_output") :
    findOutputIdx l g = none := by
  induction l with
  | nil => rfl
  | cons p rest ih =>
    have hp : ¬(p.gpio = g ∧ p.mode = "ir_output") := by
      intro ⟨h1, h2⟩
      exact h p (List.mem_cons_self p rest) h1 h2
    have := ih (fun q hq => h q (List.mem_cons_of_mem p hq))
    simp [findOutputIdx, hp, this]

theorem drainBatch_fst_ne_nil (b grace : List Char) (hb : b ≠ []) :
    (drainBatch b grace).1 ≠ [] := by
  cases b with
  | nil => exact absurd rfl hb
  | cons c rest =>
    by_cases h : isTerm c = true
    · simp [drainBatch, h]
    · simp [drainBatch, h]

theorem drainBatch_no_term (b grace : List Char)
    (h : ∀ c ∈ b, isTerm c = false) : drainBatch b grace = (b, false) := by
  induction b with
  | nil => rfl
  | cons c rest ih =>
    have hc : isTerm c = false := h c (List.mem_cons_self c rest)
    have hr := ih (fun x hx => h x (List.mem_cons_of_mem c hx))
    simp [drainBatch, hc, hr]

theorem drainBatch_term (pre post grace : List Char) (t : Char)
    (hpre : ∀ c ∈ pre, isTerm c = false) (ht : isTerm t = true) :
    drainBatch (pre ++ t :: post) grace =
      (pre ++ t :: (post ++ grace), true) := by
  induction pre with
  | nil => simp [drainBatch, ht]
  | cons c rest ih =>
    have hc : isTerm c = false := hpre c (List.mem_cons_self c rest)
    have hr := ih (fun x hx => hpre x (List.mem_cons_of_mem c hx))
    simp [drainBatch, hc, hr]

theorem serialWaitLoop_all_empty (grace : List Char) :
    ∀ (fuel : Nat) (env : List (List Char)),
      (∀ b ∈ env.take fuel, b = []) → serialWaitLoop grace fuel env = [] := by
  intro fuel
  induction fuel with
  | zero => intro env _; rfl
  | succ n ih =>
    intro env h
    cases env with
    | nil =>
      simp only [serialWaitLoop, List.headD_nil, List.tail_nil, drainBatch,
        if_pos rfl]
      exact ih [] (by simp)
    | cons b rest =>
      have hb : b = [] := h b (by simp [List.take_succ_cons])
      have hrest : ∀ x ∈ rest.take n, x = [] := by
        intro x hx
        exact h x (by simp [List.take_succ_cons, hx])
      subst hb
      simp only [serialWaitLoop, List.headD_cons, List.tail_cons, drainBatch,
        if_pos rfl]
      exact ih rest hrest

theorem serialWaitLoop_skip (grace : List Char) :
    ∀ (k fuel : Nat) (env : List (List Char)), k < fuel →
      serialWaitLoop grace fuel (List.replicate k [] ++ env) =
        serialWaitLoop grace (fuel - k) env := by
  intro k
  induction k with
  | zero => intro fuel env _; simp
  | succ n ih =>
    intro fuel env hk
    cases fuel with
    | zero => exact absurd hk (by omega)
    | succ f =>
      have hstep : serialWaitLoop grace (f + 1)
          (List.replicate (n + 1) [] ++ env) =
          serialWaitLoop grace f (List.replicate n [] ++ env) := by
        simp only [List.replicate_succ, List.cons_append, serialWaitLoop,
          List.headD_cons, List.tail_cons, drainBatch, if_pos rfl, if_true]
      have hsub : f + 1 - (n + 1) = f - n := by omega
      rw [hstep, ih f env (by omega), hsub]

theorem serialWaitLoop_data (grace b : List Char) (rest : List (List Char))
    (fuel : Nat) (hb : b ≠ []) (hf : 0 < fuel) :
    serialWaitLoop grace fuel (b :: rest) = (drainBatch b grace).1 := by
  obtain ⟨f, rfl⟩ : ∃ f, fuel = f + 1 := ⟨fuel - 1, by omega⟩
  have hne := drainBatch_fst_ne_nil b grace hb
  simp only [serialWaitLoop, List.headD_cons, if_neg hne]

theorem serialsend_ok_raw (s : FwState) (req : SerialSendReq)
    (env : List (List Char)) (grace : List Char)
    (hEn : s.serialEnabled = true) (hData : req.data.length ≠ 0) :
    (handleSerialSend s req env grace).2.2 =
      SerialSendResult.ok (String.mk (trimChars
        (if req.waitResponse = true ∧ 0 < req.timeout then
          serialWaitLoop grace (pollBudget req.timeout.toNat) env
        else []))) := by
  unfold handleSerialSend
  rw [if_neg (by simp [hEn]), if_neg hData]

/- Claim theorems. -/

/-- C1: at most one IR receiver binding exists at any time — for every
sequence startReceiver(g1), startReceiver(g2) with g1 ≠ g2, the second
call tears the previous binding down (the `teardownRecv g1` effect comes
before `createRecv g2` in its effect list) and afterwards the single
receiver slot holds exactly the binding on g2, which is also the active
receiver gpio. -/
theorem receiver_single_binding (s : FwState) (g1 g2 : Int) (_hne : g1 ≠ g2) :
    (handleLearningStart (handleLearningStart s (some g1)).1 (some g2)).2 =
      [HwAction.teardownRecv g1, HwAction.createRecv g2,
       HwAction.httpRespond 200] ∧
    (handleLearningStart (handleLearningStart s (some g1)).1
        (some g2)).1.irReceiver = some g2 ∧
    (handleLearningStart (handleLearningStart s (some g1)).1
        (some g2)).1.activeReceiverPort = g2 := by
  refine ⟨?_, ?_, ?_⟩ <;> simp [handleLearningStart, initIRReceiver]

/-- C1 witness: the property at a concrete state, gpio 34 then 35. -/
theorem receiver_single_binding_witness :
    (handleLearningStart (handleLearningStart demoState (some 34)).1
        (some 35)).2 =
      [HwAction.teardownRecv 34, HwAction.createRecv 35,
       HwAction.httpRespond 200] ∧
    (handleLearningStart (handleLearningStart demoState (some 34)).1
        (some 35)).1.irReceiver = some 35 ∧
    (handleLearningStart (handleLearningStart demoState (some 34)).1
        (some 35)).1.activeReceiverPort = 35 :=
  receiver_single_binding demoState 34 35 (by decide)

/-- C9 counterexample: after startReceiver(34) then stopReceiver, the
receiver binding still exists (the `IRrecv` object is not freed by
`handleLearningStop`, which only calls `disableIRIn`), contradicting
"after it returns no receiver binding exists". -/
theorem stop_retains_receiver_object :
    (handleLearningStop
        (handleLearningStart demoState (some 34)).1).1.irReceiver =
      some 34 := by
  decide

/-- C9 amended: stopReceiver disables IR capture on the receiver if one
is allocated and sets the active receiver to none; with no allocated
receiver it is a safe no-op (only `activeReceiverPort` is written).  The
allocated receiver object itself is retained — it is freed only by the
next startReceiver — so a receiver binding may still exist afterwards,
merely disabled. -/
theorem stop_receiver_amended (s : FwState) :
    (handleLearningStop s).1.activeReceiverPort = -1 ∧
    (handleLearningStop s).1.irReceiver = s.irReceiver ∧
    (handleLearningStop s).1.ports = s.ports ∧
    (handleLearningStop s).1.irSenders = s.irSenders ∧
    (∀ g, s.irReceiver = some g →
      (handleLearningStop s).1.irEnabled = false ∧
      (handleLearningStop s).2 =
        [HwAction.disableRecv g, HwAction.httpRespond 200]) ∧
    (s.irReceiver = none →
      (handleLearningStop s).1 = { s with activeReceiverPort := -1 } ∧
      (handleLearningStop s).2 = [HwAction.httpRespond 200]) := by
  cases hr : s.irReceiver <;> simp [handleLearningStop, hr]

/-- C9 amended, witness: concrete evaluation at a state with no
receiver. -/
theorem stop_receiver_amended_witness :
    (handleLearningStop demoState).1.activeReceiverPort = -1 ∧
    (handleLearningStop demoState).2 = [HwAction.httpRespond 200] :=
  ⟨(stop_receiver_amended demoState).1,
   ((stop_receiver_amended demoState).2.2.2.2.2 rfl).2⟩

/-- C3: for a gpio in the input-only pin set that is present in the port
table, configuring it as `ir_output` is rejected with the
RoleNotSupported (400 "GPIO is input-only") error, the state — table,
roles, labels, hardware bindings — is returned unchanged, and the only
effect is the error response (so nothing is persisted and no hardware is
touched). -/
theorem configure_input_only_rejected (s : FwState) (req : ConfigureReq)
    (hMode : req.mode = "ir_output") (hIn : req.gpio ∈ INPUT_ONLY_PINS)
    (hMem : ∃ p ∈ s.ports, p.gpio = req.gpio) :
    handleConfigurePort s req =
      (s, [HwAction.httpRespond 400], ConfigureResult.roleNotSupported) := by
  obtain ⟨ip, hip⟩ := findPortIdx_mem s.ports req.gpio hMem
  simp [handleConfigurePort, hip, hMode, hIn]

/-- C3 witness: gpio 34 (input-only, present in the demo table). -/
theorem configure_input_only_rejected_witness :
    handleConfigurePort demoState
        { gpio := 34, mode := "ir_output", name := "x" } =
      (demoState, [HwAction.httpRespond 400],
       ConfigureResult.roleNotSupported) :=
  configure_input_only_rejected demoState
    { gpio := 34, mode := "ir_output", name := "x" } rfl (by decide) (by decide)

/-- On the success path of `handleConfigurePort` (port found, input-only
guard passed) the effect list ends with the `saveConfig` write of the
final state's full table followed by the 200 response, in that order. -/
theorem configure_ok_shape (s : FwState) (req : ConfigureReq)
    (ip : Nat × PortConfig)
    (hfind : findPortIdx s.ports req.gpio = some ip)
    (hg : ¬(req.mode = "ir_output" ∧ req.gpio ∈ INPUT_ONLY_PINS)) :
    ∃ pre s1, handleConfigurePort s req =
      (s1, pre ++ [HwAction.persistConfig s1.boardId s1.boardName
                     s1.adopted s1.ports,
                   HwAction.httpRespond 200],
       ConfigureResult.ok req.gpio req.mode req.name) := by
  refine ⟨(configureStep s ip req).2, (configureStep s ip req).1, ?_⟩
  simp [handleConfigurePort, hfind, hg, saveConfigAction]

/-- C8: every successful configurePort call writes the full (updated)
port table to the persisted config store before the HTTP success
response is produced — in every run whose result is `ok`, the effect
list ends with the `saveConfig` write of the final state's table
immediately followed by the 200 response. -/
theorem configure_persist_before_response (s : FwState) (req : ConfigureReq)
    (g : Int) (m n : String)
    (hOk : (handleConfigurePort s req).2.2 = ConfigureResult.ok g m n) :
    ∃ pre s1, handleConfigurePort s req =
      (s1, pre ++ [HwAction.persistConfig s1.boardId s1.boardName
                     s1.adopted s1.ports,
                   HwAction.httpRespond 200],
       ConfigureResult.ok g m n) := by
  cases hfind : findPortIdx s.ports req.gpio with
  | none =>
    rw [show (handleConfigurePort s req).2.2 = ConfigureResult.unknownPort by
      simp [handleConfigurePort, hfind]] at hOk
    exact absurd hOk (by simp)
  | some ip =>
    by_cases hg : req.mode = "ir_output" ∧ req.gpio ∈ INPUT_ONLY_PINS
    · rw [show (handleConfigurePort s req).2.2 =
          ConfigureResult.roleNotSupported by
        simp [handleConfigurePort, hfind, hg]] at hOk
      exact absurd hOk (by simp)
    · obtain ⟨pre, s1, hshape⟩ := configure_ok_shape s req ip hfind hg
      rw [show (handleConfigurePort s req).2.2 =
          ConfigureResult.ok req.gpio req.mode req.name by
        rw [hshape]] at hOk
      obtain ⟨rfl, rfl, rfl⟩ := ConfigureResult.ok.inj hOk
      exact ⟨pre, s1, hshape⟩

/-- C8 witness: a concrete successful reconfiguration on gpio 4. -/
theorem configure_persist_before_response_witness :
    ∃ pre s1, handleConfigurePort demoState
        { gpio := 4, mode := "disabled", name := "x" } =
      (s1, pre ++ [HwAction.persistConfig s1.boardId s1.boardName
                     s1.adopted s1.ports,
                   HwAction.httpRespond 200],
       ConfigureResult.ok 4 "disabled" "x") :=
  configure_persist_before_response demoState
    { gpio := 4, mode := "disabled", name := "x" } 4 "disabled" "x" (by decide)

/-- C10: configurePort does not validate the role string — for a gpio
present in the table, any mode outside the known set (including the
empty string) is accepted and stored verbatim, the full updated table is
persisted, a success result is returned, no hardware effect is issued
and the sender/receiver bindings are untouched, and the updated mode is
reported at the port's position in the `/ports` listing. -/
theorem configure_role_not_validated (s : FwState) (req : ConfigureReq)
    (ip : Nat × PortConfig)
    (hfind : findPortIdx s.ports req.gpio = some ip)
    (h1 : req.mode ≠ "ir_output") (h2 : req.mode ≠ "ir_input")
    (_h3 : req.mode ≠ "disabled") :
    handleConfigurePort s req =
      ({ s with ports := roleUpdatedPorts s ip req },
       [HwAction.persistConfig s.boardId s.boardName s.adopted
          (roleUpdatedPorts s ip req),
        HwAction.httpRespond 200],
       ConfigureResult.ok req.gpio req.mode req.name) ∧
    ((handlePorts { s with ports := roleUpdatedPorts s ip req })[ip.1]?).map
      PortSnapshot.mode = some req.mode := by
  constructor
  · have hg : ¬(req.mode = "ir_output" ∧ req.gpio ∈ INPUT_ONLY_PINS) := by
      intro hc
      exact h1 hc.1
    simp [handleConfigurePort, hfind, hg, configureStep, h1, h2,
      roleUpdatedPorts, saveConfigAction]
  · have hlen : ip.1 < s.ports.length :=
      (findPortIdx_sound req.gpio s.ports ip.1 ip.2
        (by rw [← hfind])).1
    rw [handlePorts, getAt_map, roleUpdatedPorts]
    rw [getAt_set_self _ ip.1 _ (by simpa using hlen)]
    simp

/-- C10 witness: the empty mode string on gpio 4 of the demo table. -/
theorem configure_role_not_validated_witness :
    handleConfigurePort demoState { gpio := 4, mode := "", name := "z" } =
      ({ demoState with
          ports :=
            roleUpdatedPorts demoState
              (0, { gpio := 4, mode := "ir_output", name := "tv" })
              { gpio := 4, mode := "", name := "z" } },
       [HwAction.persistConfig demoState.boardId demoState.boardName
          demoState.adopted
          (roleUpdatedPorts demoState
            (0, { gpio := 4, mode := "ir_output", name := "tv" })
            { gpio := 4, mode := "", name := "z" }),
        HwAction.httpRespond 200],
       ConfigureResult.ok 4 "" "z") ∧
    ((handlePorts { demoState with
        ports :=
          roleUpdatedPorts demoState
            (0, { gpio := 4, mode := "ir_output", name := "tv" })
            { gpio := 4, mode := "", name := "z" } })[0]?).map
      PortSnapshot.mode = some "" :=
  configure_role_not_validated demoState { gpio := 4, mode := "", name := "z" }
    (0, { gpio := 4, mode := "ir_output", name := "tv" })
    rfl (by decide) (by decide) (by decide)

/-- C7: sendIr fails with the PortNotBoundForOutput (400) error whenever
no table entry with the requested gpio has role `ir_output`, or the
found entry has no allocated sender; the state is returned unchanged and
the only effect is the error response — no transmission is dispatched. -/
theorem sendir_unbound_rejected (s : FwState) (req : SendIrReq)
    (h : (∀ p ∈ s.ports, p.gpio = req.output → p.mode ≠ "ir_output") ∨
         (∃ i, findOutputIdx s.ports req.output = some i ∧
            senderAt s i = none)) :
    handleSendIR s req = (s, [HwAction.httpRespond 400], false) := by
  cases h with
  | inl h =>
    have hn : findOutputIdx s.ports req.output = none :=
      findOutputIdx_none s.ports req.output h
    simp [handleSendIR, hn]
  | inr h =>
    obtain ⟨i, hi, hs⟩ := h
    simp [handleSendIR, hi, hs]

/-- C7 witness: gpio 34 has role `disabled` in the demo table. -/
theorem sendir_unbound_rejected_witness :
    handleSendIR demoState { output := 34, code := "1f", protocol := "nec" } =
      (demoState, [HwAction.httpRespond 400], false) :=
  sendir_unbound_rejected demoState
    { output := 34, code := "1f", protocol := "nec" } (Or.inl (by decide))

/-- C4: on a bound output port, protocol "pioneer" dispatches a
generic-timing transmission with exactly the constants header mark
8506µs, header space 4191µs, bit mark 568µs, one-space 1542µs,
zero-space 487µs, footer mark 568µs, footer gap 25181µs, minimum frame
84906µs, 32 data bits, 40kHz carrier, MSB-first, no repeats, 33% duty,
carrying the parsed payload. -/
theorem sendir_pioneer_timing (s : FwState) (req : SendIrReq)
    (i : Nat) (g : Int)
    (hfind : findOutputIdx s.ports req.output = some i)
    (hsend : senderAt s i = some g)
    (hp : req.protocol = "pioneer") :
    handleSendIR s req =
      (s, [HwAction.sendGeneric 8506 4191 568 1542 568 487 568 25181 84906
             (parseHex req.code) 32 40 true 0 33,
           HwAction.httpRespond 200], true) := by
  simp [handleSendIR, hfind, hsend, dispatchProtocol, hp]

/-- C4 witness: demo state, payload "deadbeef" on the bound gpio 4. -/
theorem sendir_pioneer_timing_witness :
    handleSendIR demoState
        { output := 4, code := "deadbeef", protocol := "pioneer" } =
      (demoState, [HwAction.sendGeneric 8506 4191 568 1542 568 487 568
          25181 84906 (parseHex "deadbeef") 32 40 true 0 33,
        HwAction.httpRespond 200], true) :=
  sendir_pioneer_timing demoState
    { output := 4, code := "deadbeef", protocol := "pioneer" } 0 4
    rfl rfl rfl

/-- C5: on a bound output port, any protocol name outside the known set
(nec, samsung, sony, rc5, rc6, lg, panasonic, pioneer) falls through to
the default encoder — a plain `sendNEC` with the same parsed payload —
and the handler still responds success, never an error. -/
theorem sendir_unknown_protocol_nec (s : FwState) (req : SendIrReq)
    (i : Nat) (g : Int)
    (hfind : findOutputIdx s.ports req.output = some i)
    (hsend : senderAt s i = some g)
    (hp : req.protocol ∉ KNOWN_PROTOCOLS) :
    handleSendIR s req =
      (s, [HwAction.sendNEC (parseHex req.code), HwAction.httpRespond 200],
       true) := by
  simp only [KNOWN_PROTOCOLS, List.mem_cons, List.not_mem_nil, or_false,
    not_or] at hp
  obtain ⟨n1, n2, n3, n4, n5, n6, n7, n8⟩ := hp
  simp [handleSendIR, hfind, hsend, dispatchProtocol, n1, n2, n3, n4, n5,
    n6, n7, n8]

/-- C5 witness: unknown protocol "foo" on the bound gpio 4. -/
theorem sendir_unknown_protocol_nec_witness :
    handleSendIR demoState { output := 4, code := "1f", protocol := "foo" } =
      (demoState, [HwAction.sendNEC (parseHex "1f"),
        HwAction.httpRespond 200], true) :=
  sendir_unknown_protocol_nec demoState
    { output := 4, code := "1f", protocol := "foo" } 0 4 rfl rfl (by decide)

/-- C2 counterexample: the wait loop of serialSend does not keep polling
until a terminator or an empty timeout — with a single arriving batch
"AB" containing no terminator byte, the loop stops at once and the
handler resolves successfully with "AB", long before the 1000ms budget
is exhausted and even though a terminator was never seen. -/
theorem serial_wait_stops_without_terminator :
    serialWaitLoop [] (pollBudget 1000) [['A', 'B']] = ['A', 'B'] ∧
    (['A', 'B'].all (fun c => !(isTerm c))) = true ∧
    (handleSerialSend demoState demoSerialReq [['A', 'B']] []).2.2 =
      SerialSendResult.ok "AB" := by
  refine ⟨?_, ?_, ?_⟩ <;> decide

/-- C2 (amended): with the bridge configured, nonempty data and
wait-for-response with a positive timeout, the wait loop polls the UART
until either any data is received — stopping at the first nonempty read
whether or not it holds a terminator — or the timeout elapses with
nothing received (empty result); when a terminator byte (newline,
carriage return or exclamation mark) is among the drained bytes, the
fixed 50ms grace window absorbs the trailing bytes; the accumulated
response is whitespace-trimmed before being returned. -/
theorem serialsend_wait_behaviour (s : FwState) (req : SerialSendReq)
    (env : List (List Char)) (grace : List Char)
    (hEn : s.serialEnabled = true) (hData : req.data.length ≠ 0)
    (hWait : req.waitResponse = true) (hPos : 0 < req.timeout) :
    ((∀ b ∈ env.take (pollBudget req.timeout.toNat), b = []) →
      (handleSerialSend s req env grace).2.2 = SerialSendResult.ok "") ∧
    (∀ k b rest, env = List.replicate k [] ++ b :: rest →
      k < pollBudget req.timeout.toNat → b ≠ [] →
      (handleSerialSend s req env grace).2.2 =
        SerialSendResult.ok (String.mk (trimChars (drainBatch b grace).1))) ∧
    (∀ pre t post, (∀ c ∈ pre, isTerm c = false) → isTerm t = true →
      drainBatch (pre ++ t :: post) grace =
        (pre ++ t :: (post ++ grace), true)) ∧
    (∀ b, (∀ c ∈ b, isTerm c = false) → drainBatch b grace = (b, false)) := by
  have hok := serialsend_ok_raw s req env grace hEn hData
  rw [if_pos ⟨hWait, hPos⟩] at hok
  refine ⟨?_, ?_,
    fun pre t post hpre ht => drainBatch_term pre post grace t hpre ht,
    fun b hb => drainBatch_no_term b grace hb⟩
  · intro hempty
    rw [hok,
      serialWaitLoop_all_empty grace (pollBudget req.timeout.toNat) env hempty]
    decide
  · intro k b rest henv hk hb
    subst henv
    have hok2 := serialsend_ok_raw s req (List.replicate k [] ++ b :: rest)
      grace hEn hData
    rw [if_pos ⟨hWait, hPos⟩,
      serialWaitLoop_skip grace k (pollBudget req.timeout.toNat)
        (b :: rest) hk,
      serialWaitLoop_data grace b rest (pollBudget req.timeout.toNat - k)
        hb (by omega)] at hok2
    exact hok2

/-- C2 witness: a reply "OK\r" at the first poll, with the terminator
grace window empty; the trimmed response is "OK". -/
theorem serialsend_wait_behaviour_witness :
    (handleSerialSend demoState demoSerialReq [['O', 'K', '\r']] []).2.2 =
      SerialSendResult.ok "OK" :=
  ((serialsend_wait_behaviour demoState demoSerialReq [['O', 'K', '\r']] []
      rfl (by decide) rfl (by decide)).2.1 0 ['O', 'K', '\r'] [] rfl
      (by decide) (by decide)).trans (by decide)

/-- C6: with the bridge configured and nonempty data, serialSend always
resolves to a success result carrying some response string (never an
error); and if the wait-for-response window sees no data at any poll,
the response is exactly the empty string. -/
theorem serialsend_timeout_empty_success (s : FwState) (req : SerialSendReq)
    (env : List (List Char)) (grace : List Char)
    (hEn : s.serialEnabled = true) (hData : req.data.length ≠ 0) :
    (∃ r, (handleSerialSend s req env grace).2.2 = SerialSendResult.ok r) ∧
    ((∀ b ∈ env.take (pollBudget req.timeout.toNat), b = []) →
      (handleSerialSend s req env grace).2.2 = SerialSendResult.ok "") := by
  have hok := serialsend_ok_raw s req env grace hEn hData
  constructor
  · exact ⟨_, hok⟩
  · intro hempty
    rw [hok]
    by_cases hw : req.waitResponse = true ∧ 0 < req.timeout
    · rw [if_pos hw,
        serialWaitLoop_all_empty grace (pollBudget req.timeout.toNat)
          env hempty]
      decide
    · rw [if_neg hw]
      decide

/-- C6 witness: no device attached (no bytes ever arrive) — the result
is the empty string with a success status. -/
theorem serialsend_timeout_empty_success_witness :
    (handleSerialSend demoState demoSerialReq [] []).2.2 =
      SerialSendResult.ok "" :=
  (serialsend_timeout_empty_success demoState demoSerialReq [] []
    rfl (by decide)).2 (by simp)
